import Mathlib

/-!
Shallow embedding of the blivechat-tts client (`src/blcapi/client.py`,
`src/blcapi/handlers.py`, `src/blcapi/models.py`, `src/listener.py`).

JSON payloads are modelled by `JVal`; Python dictionary lookup, sequence
indexing, truthiness and `int`-comparison are modelled by `pyGetKey`,
`pyIndex`, `pyBool` and `pyEqInt`. Exceptions are modelled by
`Except PyExc` values; the connection lifecycle of
`BlivechatClient._network_coroutine` is modelled as a function over a
script of connection attempts.
-/

namespace Blc

/-- A JSON value, as produced by `json.loads`. Numbers are restricted to
integers, which is all the wire protocol uses. -/
inductive JVal where
  | jnull
  | jbool (b : Bool)
  | jnum (n : Int)
  | jstr (s : String)
  | jarr (xs : List JVal)
  | jobj (fields : List (String × JVal))

/-- Python `d[k]` on a JSON value for a string key: a lookup in a JSON
object; `none` models a raised `KeyError`/`TypeError`. -/
def pyGetKey : JVal → String → Option JVal
  | .jobj fields, k => (fields.find? (fun p => p.1 = k)).map Prod.snd
  | _, _ => none

/-- Python `x[i]` on a JSON value for a non-negative integer index:
list indexing or string indexing; `none` models a raised
`IndexError`/`KeyError`/`TypeError`. -/
def pyIndex : JVal → Nat → Option JVal
  | .jarr xs, i => xs.get? i
  | .jstr s, i => (s.data.get? i).map (fun c => JVal.jstr (String.mk [c]))
  | _, _ => none

/-- Python `x == n` between a JSON-decoded value and an `int` (or
`IntEnum`) constant: `True == 1` and `False == 0` in Python. -/
def pyEqInt : JVal → Int → Bool
  | .jnum m, n => m = n
  | .jbool b, n => (if b then (1 : Int) else 0) = n
  | _, _ => false

/-- Python `bool(x)` on a JSON-decoded value (truthiness). -/
def pyBool : JVal → Bool
  | .jnull => false
  | .jbool b => b
  | .jnum n => n != 0
  | .jstr s => s != ""
  | .jarr xs => !xs.isEmpty
  | .jobj fields => !fields.isEmpty

/-- The hashable identity of a JSON value used as a `dict`/`set` key in
Python: `True`/`1` and `False`/`0` coincide; lists and objects are
unhashable (`none` models the raised `TypeError`). -/
inductive CmdKey where
  | intKey (n : Int)
  | strKey (s : String)
  | nullKey
deriving DecidableEq

def pyCmdKey : JVal → Option CmdKey
  | .jnum n => some (.intKey n)
  | .jbool b => some (.intKey (if b then 1 else 0))
  | .jstr s => some (.strKey s)
  | .jnull => some .nullKey
  | .jarr _ => none
  | .jobj _ => none

/-! ## `client.py`: RoomKey -/

/-- Model of `RoomKeyType` from `client.py`. -/
inductive RoomKeyType where
  | ROOM_ID
  | AUTH_CODE
deriving DecidableEq

/-- The `value` field of a `RoomKey`: `int | str`. -/
inductive RoomKeyValue where
  | intVal (n : Int)
  | strVal (s : String)
deriving DecidableEq

/-- Python `str(value)` on a room key value. -/
def RoomKeyValue.toStr : RoomKeyValue → String
  | .intVal n => toString n
  | .strVal s => s

/-- Model of `RoomKey` from `client.py` (a `NamedTuple`). -/
structure RoomKey where
  type : RoomKeyType
  value : RoomKeyValue
deriving DecidableEq

/-- Python `res[-3:]`: the last three characters of a string, or the whole
string when it has three or fewer characters. -/
def strLast3 (s : String) : String :=
  String.mk (s.data.drop (s.data.length - 3))

/-- Model of `RoomKey.__str__` from `client.py`: an `AUTH_CODE` value is masked as
`'***' + res[-3:]`; a `ROOM_ID` is shown in full. -/
def RoomKey.str (k : RoomKey) : String :=
  let res := k.value.toStr
  if k.type = RoomKeyType.AUTH_CODE then "***" ++ strLast3 res else res

/-! ## `client.py`: Command codes and reconnect backoff -/

/-- The `Command` IntEnum from `client.py`, as integer codes. -/
def Command.HEARTBEAT : Int := 0
def Command.JOIN_ROOM : Int := 1
def Command.ADD_TEXT : Int := 2
def Command.ADD_GIFT : Int := 3
def Command.ADD_MEMBER : Int := 4
def Command.ADD_SUPER_CHAT : Int := 5
def Command.DEL_SUPER_CHAT : Int := 6
def Command.UPDATE_TRANSLATION : Int := 7
def Command.FATAL_ERROR : Int := 8

/-- Model of `BlivechatClient._get_reconnect_interval` from `client.py`. -/
def getReconnectInterval (retry_count : Int) : Int :=
  min (1 + (retry_count - 1) * 2) 10

/-! ## `models.py`: typed messages and their decode steps

Fields that Python stores unconverted keep type `JVal`; the three fields
passed through `bool(...)` are `Bool`. A `from_command` returning `none`
models a raised decode exception (`KeyError`/`IndexError`/`TypeError`). -/

/-- Model of `ContentType` from `models.py`. -/
inductive ContentType where
  | TEXT
  | EMOTICON
deriving DecidableEq

def ContentType.val : ContentType → Int
  | .TEXT => 0
  | .EMOTICON => 1

/-- Model of `HeartbeatMsg` from `models.py`. -/
structure HeartbeatMsg where

def HeartbeatMsg.from_command (_data : JVal) : Option HeartbeatMsg :=
  some {}

/-- Model of `AddTextMsg` from `models.py`. -/
structure AddTextMsg where
  avatar_url : JVal
  timestamp : JVal
  author_name : JVal
  author_type : JVal
  content : JVal
  privilege_type : JVal
  is_gift_danmaku : Bool
  author_level : JVal
  is_newbie : Bool
  is_mobile_verified : Bool
  medal_level : JVal
  id : JVal
  translation : JVal
  content_type : JVal
  content_type_params : JVal

/-- Model of `AddTextMsg.from_command`: positional decode; when the content type
equals `ContentType.EMOTICON` the raw parameter array is rewritten into
the keyed structure `{'url': content_type_params[0]}`. -/
def AddTextMsg.from_command (data : JVal) : Option AddTextMsg := do
  let content_type ← pyIndex data 13
  let raw_params ← pyIndex data 14
  let content_type_params ←
    if pyEqInt content_type ContentType.EMOTICON.val then
      match pyIndex raw_params 0 with
      | some u => some (JVal.jobj [("url", u)])
      | none => none
    else
      some raw_params
  let avatar_url ← pyIndex data 0
  let timestamp ← pyIndex data 1
  let author_name ← pyIndex data 2
  let author_type ← pyIndex data 3
  let content ← pyIndex data 4
  let privilege_type ← pyIndex data 5
  let gift_raw ← pyIndex data 6
  let author_level ← pyIndex data 7
  let newbie_raw ← pyIndex data 8
  let mobile_raw ← pyIndex data 9
  let medal_level ← pyIndex data 10
  let id ← pyIndex data 11
  let translation ← pyIndex data 12
  pure {
    avatar_url := avatar_url
    timestamp := timestamp
    author_name := author_name
    author_type := author_type
    content := content
    privilege_type := privilege_type
    is_gift_danmaku := pyBool gift_raw
    author_level := author_level
    is_newbie := pyBool newbie_raw
    is_mobile_verified := pyBool mobile_raw
    medal_level := medal_level
    id := id
    translation := translation
    content_type := content_type
    content_type_params := content_type_params
  }

/-- Model of `AddGiftMsg` from `models.py`. -/
structure AddGiftMsg where
  id : JVal
  avatar_url : JVal
  timestamp : JVal
  author_name : JVal
  total_coin : JVal
  gift_name : JVal
  num : JVal

def AddGiftMsg.from_command (data : JVal) : Option AddGiftMsg := do
  let id ← pyGetKey data "id"
  let avatar_url ← pyGetKey data "avatarUrl"
  let timestamp ← pyGetKey data "timestamp"
  let author_name ← pyGetKey data "authorName"
  let total_coin ← pyGetKey data "totalCoin"
  let gift_name ← pyGetKey data "giftName"
  let num ← pyGetKey data "num"
  pure ⟨id, avatar_url, timestamp, author_name, total_coin, gift_name, num⟩

/-- Model of `AddMemberMsg` from `models.py`. -/
structure AddMemberMsg where
  id : JVal
  avatar_url : JVal
  timestamp : JVal
  author_name : JVal
  privilege_type : JVal

def AddMemberMsg.from_command (data : JVal) : Option AddMemberMsg := do
  let id ← pyGetKey data "id"
  let avatar_url ← pyGetKey data "avatarUrl"
  let timestamp ← pyGetKey data "timestamp"
  let author_name ← pyGetKey data "authorName"
  let privilege_type ← pyGetKey data "privilegeType"
  pure ⟨id, avatar_url, timestamp, author_name, privilege_type⟩

/-- Model of `AddSuperChatMsg` from `models.py`. -/
structure AddSuperChatMsg where
  id : JVal
  avatar_url : JVal
  timestamp : JVal
  author_name : JVal
  price : JVal
  content : JVal
  translation : JVal

def AddSuperChatMsg.from_command (data : JVal) : Option AddSuperChatMsg := do
  let id ← pyGetKey data "id"
  let avatar_url ← pyGetKey data "avatarUrl"
  let timestamp ← pyGetKey data "timestamp"
  let author_name ← pyGetKey data "authorName"
  let price ← pyGetKey data "price"
  let content ← pyGetKey data "content"
  let translation ← pyGetKey data "translation"
  pure ⟨id, avatar_url, timestamp, author_name, price, content, translation⟩

/-- Model of `DelSuperChatMsg` from `models.py`. -/
structure DelSuperChatMsg where
  ids : JVal

def DelSuperChatMsg.from_command (data : JVal) : Option DelSuperChatMsg := do
  let ids ← pyGetKey data "ids"
  pure ⟨ids⟩

/-- Model of `UpdateTranslationMsg` from `models.py` (positional payload). -/
structure UpdateTranslationMsg where
  id : JVal
  translation : JVal

def UpdateTranslationMsg.from_command (data : JVal) : Option UpdateTranslationMsg := do
  let id ← pyIndex data 0
  let translation ← pyIndex data 1
  pure ⟨id, translation⟩

/-- Model of `FatalErrorMsg` from `models.py`. -/
structure FatalErrorMsg where
  type : JVal
  msg : JVal

def FatalErrorMsg.from_command (data : JVal) : Option FatalErrorMsg := do
  let type ← pyGetKey data "type"
  let msg ← pyGetKey data "msg"
  pure ⟨type, msg⟩

/-! ## Exceptions -/

/-- The Python exceptions the model distinguishes. `fatalError` is the
`FatalError` class from `client.py`, carrying `body['type']` and
`body['msg']`; `keyError` models `KeyError`; `otherError` collapses every
other non-transport exception (`json.JSONDecodeError`, `TypeError`,
`IndexError`, an exception raised by a handler method, ...). Transport
errors (`aiohttp.ClientConnectionError`, `asyncio.TimeoutError`) are not
`PyExc` values: they arise only at connection suspension points and are
modelled by the connection script below. -/
inductive PyExc where
  | fatalError (type : JVal) (msg : JVal)
  | keyError
  | otherError

/-! ## `handlers.py`: BaseHandler dispatch -/

/-- The `_on_xxx` callback methods of `BaseHandler`. -/
inductive CallbackId where
  | on_heartbeat
  | on_add_text
  | on_add_gift
  | on_add_member
  | on_add_super_chat
  | on_del_super_chat
  | on_update_translation
  | on_fatal_error
deriving DecidableEq

/-- Model of `BaseHandler._CMD_CALLBACK_DICT` from `handlers.py`: the closed map
from command code to callback. Note it contains every `Command` code
except `JOIN_ROOM` (1). -/
def CMD_CALLBACK_DICT (cmd : Int) : Option CallbackId :=
  if cmd = Command.HEARTBEAT then some .on_heartbeat
  else if cmd = Command.ADD_TEXT then some .on_add_text
  else if cmd = Command.ADD_GIFT then some .on_add_gift
  else if cmd = Command.ADD_MEMBER then some .on_add_member
  else if cmd = Command.ADD_SUPER_CHAT then some .on_add_super_chat
  else if cmd = Command.DEL_SUPER_CHAT then some .on_del_super_chat
  else if cmd = Command.UPDATE_TRANSLATION then some .on_update_translation
  else if cmd = Command.FATAL_ERROR then some .on_fatal_error
  else none

/-- Dictionary lookup of a hashable JSON key in `_CMD_CALLBACK_DICT`
(only int-like keys can hit the integer-keyed dictionary). -/
def cmdKeyLookup : CmdKey → Option CallbackId
  | .intKey n => CMD_CALLBACK_DICT n
  | _ => none

/-- Whether `message_cls.from_command(command['data'])` succeeds for the
message class wired to a callback in `_CMD_CALLBACK_DICT`. -/
def decodeSucceeds (cb : CallbackId) (data : JVal) : Bool :=
  match cb with
  | .on_heartbeat => (HeartbeatMsg.from_command data).isSome
  | .on_add_text => (AddTextMsg.from_command data).isSome
  | .on_add_gift => (AddGiftMsg.from_command data).isSome
  | .on_add_member => (AddMemberMsg.from_command data).isSome
  | .on_add_super_chat => (AddSuperChatMsg.from_command data).isSome
  | .on_del_super_chat => (DelSuperChatMsg.from_command data).isSome
  | .on_update_translation => (UpdateTranslationMsg.from_command data).isSome
  | .on_fatal_error => (FatalErrorMsg.from_command data).isSome

/-- Result of one `BaseHandler.handle(client, command)` call:
`unknownLogged` is the first-seen warning for an unknown cmd, `invoked`
is the `_on_xxx` method actually invoked, `logged` is the new state of
the module-level `logged_unknown_cmds` set, `result` is the call's
normal return or raised exception. -/
structure BaseHandleResult where
  unknownLogged : Bool
  invoked : Option CallbackId
  logged : List CmdKey
  result : Except PyExc Unit

/-- Model of `BaseHandler.handle` from `handlers.py`. The installed handler's
callback behaviour is abstracted by `cbRaises`: whether a given `_on_xxx`
override raises. `logged` threads the process-wide
`logged_unknown_cmds` set. -/
def base_handle (cbRaises : CallbackId → Bool) (logged : List CmdKey)
    (command : JVal) : BaseHandleResult :=
  match pyGetKey command "cmd" with
  | none => ⟨false, none, logged, .error .keyError⟩
  | some cmd =>
    match pyCmdKey cmd with
    | none => ⟨false, none, logged, .error .otherError⟩
    | some k =>
      match cmdKeyLookup k with
      | none =>
        if k ∈ logged then ⟨false, none, logged, .ok ()⟩
        else ⟨true, none, k :: logged, .ok ()⟩
      | some cb =>
        match pyGetKey command "data" with
        | none => ⟨false, none, logged, .error .keyError⟩
        | some data =>
          if decodeSucceeds cb data then
            ⟨false, some cb, logged,
              if cbRaises cb then .error .otherError else .ok ()⟩
          else
            ⟨false, none, logged, .error .otherError⟩

/-! ## `client.py`: `_handle_command` -/

/-- Result of one `BlivechatClient._handle_command(command)` call.
`dispatch` records the inner `handler.handle` call (`none` when no
handler is installed); `handlerErrorLogged` is the `logger.exception`
from the `except` wrapped around it; `logged` threads the process-wide
unknown-cmd set; `result` is the step's normal return or raised
exception. -/
structure HandleCommandResult where
  dispatch : Option BaseHandleResult
  handlerErrorLogged : Bool
  logged : List CmdKey
  result : Except PyExc Unit

/-- Model of `BlivechatClient._handle_command` from `client.py`: invoke the
installed handler inside a catch-all that logs, then, unconditionally,
raise `FatalError(body['type'], body['msg'])` when `cmd` equals
`Command.FATAL_ERROR`. -/
def handle_command (hasHandler : Bool) (cbRaises : CallbackId → Bool)
    (logged : List CmdKey) (command : JVal) : HandleCommandResult :=
  let disp : Option BaseHandleResult :=
    if hasHandler then some (base_handle cbRaises logged command) else none
  let logged' := match disp with
    | some r => r.logged
    | none => logged
  let errLogged := match disp with
    | some r => !r.result.isOk
    | none => false
  let res : Except PyExc Unit :=
    match pyGetKey command "cmd" with
    | none => .error .keyError
    | some cmd =>
      if pyEqInt cmd Command.FATAL_ERROR then
        match pyGetKey command "data" with
        | none => .error .keyError
        | some body =>
          match pyGetKey body "type" with
          | none => .error .keyError
          | some t =>
            match pyGetKey body "msg" with
            | none => .error .keyError
            | some m => .error (.fatalError t m)
      else .ok ()
  ⟨disp, errLogged, logged', res⟩

/-! ## `client.py`: receive loop and lifecycle

The WebSocket transport is modelled by a script: each connection attempt
either fails outright (`connectFail`, caught as a transport error) or
delivers a list of inbound frames followed by how the stream ends
(`closed`: the `async for` terminates normally; `transportError`: a read
raises `aiohttp.ClientConnectionError`/`asyncio.TimeoutError`). -/

/-- One inbound WebSocket message. `textFrame none` is a TEXT frame whose
payload `json.loads` cannot parse; `textFrame (some body)` is a parsed
envelope; `binFrame` is any non-TEXT frame. -/
inductive WsFrame where
  | textFrame (raw : Option JVal)
  | binFrame

/-- How an established connection's frame stream ends (when no dispatch
exception ended it first). -/
inductive StreamEnd where
  | closed
  | transportError

/-- One scripted connection attempt. -/
inductive ConnAttempt where
  | connectFail
  | connected (frames : List WsFrame) (ending : StreamEnd)

/-- Result of one `BlivechatClient._on_ws_message(message)` call.
`nonTextLogged`: the warning for a non-TEXT frame; `bodyErrorLogged`: the
`logger.error` carrying the offending raw payload, emitted whenever
parsing or `_handle_command` raises (the exception is then re-raised);
`dispatch` records the `_handle_command` call if one was made. -/
structure WsMsgResult where
  nonTextLogged : Bool
  bodyErrorLogged : Bool
  dispatch : Option HandleCommandResult
  logged : List CmdKey
  result : Except PyExc Unit

/-- Model of `BlivechatClient._on_ws_message` from `client.py`. -/
def on_ws_message (hasHandler : Bool) (cbRaises : CallbackId → Bool)
    (logged : List CmdKey) (msg : WsFrame) : WsMsgResult :=
  match msg with
  | .binFrame => ⟨true, false, none, logged, .ok ()⟩
  | .textFrame none => ⟨false, true, none, logged, .error .otherError⟩
  | .textFrame (some body) =>
    let r := handle_command hasHandler cbRaises logged body
    match r.result with
    | .ok _ => ⟨false, false, some r, r.logged, .ok ()⟩
    | .error e => ⟨false, true, some r, r.logged, .error e⟩

/-- Result of the `async for message in websocket` body over a frame
list: the per-message logs, the `retry_count` after the loop, the
unknown-cmd set, and the exception (if one escaped and ended the loop). -/
structure FramesResult where
  msgLogs : List WsMsgResult
  retry : Nat
  logged : List CmdKey
  exc : Option PyExc

/-- The receive loop of `BlivechatClient._network_coroutine`: process
frames in order; after each `_on_ws_message` that returns normally,
`retry_count = 0`; an exception ends the loop immediately. -/
def runFrames (hasHandler : Bool) (cbRaises : CallbackId → Bool) :
    Nat → List CmdKey → List WsFrame → FramesResult
  | retry, logged, [] => ⟨[], retry, logged, none⟩
  | retry, logged, f :: fs =>
    let r := on_ws_message hasHandler cbRaises logged f
    match r.result with
    | .ok _ =>
      let rest := runFrames hasHandler cbRaises 0 r.logged fs
      ⟨r :: rest.msgLogs, rest.retry, rest.logged, rest.exc⟩
    | .error e => ⟨[r], retry, r.logged, some e⟩

/-- Every frame of the list is handled successfully (its
`_on_ws_message` returns without raising), threading the unknown-cmd
set. -/
def framesAllOk (hasHandler : Bool) (cbRaises : CallbackId → Bool) :
    List CmdKey → List WsFrame → Bool
  | _, [] => true
  | logged, f :: fs =>
    let r := on_ws_message hasHandler cbRaises logged f
    match r.result with
    | .ok _ => framesAllOk hasHandler cbRaises r.logged fs
    | .error _ => false

/-- The connection-scoped runtime fields of the client:
`self._websocket` and `self._heartbeat_timer_handle` (as presence
flags). -/
structure ConnState where
  websocket : Bool
  heartbeat_timer : Bool
deriving DecidableEq

/-- Model of `BlivechatClient._on_ws_close` plus the `self._websocket = None` of
the `finally` block: cancel the pending heartbeat timer and clear the
active-connection reference. -/
def ws_teardown (s : ConnState) : ConnState :=
  let s1 : ConnState := { s with websocket := false }
  if s1.heartbeat_timer then { s1 with heartbeat_timer := false } else s1

/-- How one iteration of the `while True` loop of `_network_coroutine`
ends: either it reaches the reconnect code with a new `retry_count`
(transport error caught, or stream closed), or an exception escapes the
iteration (and hence the loop, since only transport errors are caught). -/
inductive CycleOutcome where
  | toBackoff (retry : Nat)
  | raised (e : PyExc)

/-- Result of one `while True` iteration. `connState` is the state of
the connection fields after the iteration's `finally` block. -/
structure CycleResult where
  outcome : CycleOutcome
  connState : ConnState
  msgLogs : List WsMsgResult
  logged : List CmdKey

/-- One iteration of the `while True` loop of `_network_coroutine`:
connect (failure is a caught transport error), set `self._websocket`,
join room and schedule the heartbeat timer, run the receive loop, and
always run teardown on the way out. Only transport errors lead to the
`retry_count += 1` reconnect code; `FatalError` is re-raised and any
other exception is simply not caught. -/
def run_cycle (hasHandler : Bool) (cbRaises : CallbackId → Bool)
    (retry : Nat) (logged : List CmdKey) (att : ConnAttempt) : CycleResult :=
  match att with
  | .connectFail => ⟨.toBackoff (retry + 1), ws_teardown ⟨false, false⟩, [], logged⟩
  | .connected frames ending =>
    let fr := runFrames hasHandler cbRaises retry logged frames
    let final := ws_teardown ⟨true, true⟩
    match fr.exc with
    | some e => ⟨.raised e, final, fr.msgLogs, fr.logged⟩
    | none =>
      match ending with
      | .closed => ⟨.toBackoff (fr.retry + 1), final, fr.msgLogs, fr.logged⟩
      | .transportError => ⟨.toBackoff (fr.retry + 1), final, fr.msgLogs, fr.logged⟩

/-- How `_network_coroutine` itself ends: cancelled (the script runs out
and the pending suspension is cancelled by `stop()`), or with an escaped
exception. -/
inductive NetEnd where
  | cancelled
  | raised (e : PyExc)

/-- A whole run of `_network_coroutine`: the `retry_count` value at each
executed backoff (its sleep is `getReconnectInterval` of that value),
all per-message logs, the final unknown-cmd set, and how the coroutine
ended. -/
structure NetRun where
  backoffs : List Nat
  msgLogs : List WsMsgResult
  logged : List CmdKey
  ending : NetEnd

/-- Model of `BlivechatClient._network_coroutine` from `client.py`, driven by a
script of connection attempts, starting from a given `retry_count` and
unknown-cmd set. -/
def network_coroutine (hasHandler : Bool) (cbRaises : CallbackId → Bool) :
    Nat → List CmdKey → List ConnAttempt → NetRun
  | _, logged, [] => ⟨[], [], logged, .cancelled⟩
  | retry, logged, att :: rest =>
    let c := run_cycle hasHandler cbRaises retry logged att
    match c.outcome with
    | .raised e => ⟨[], c.msgLogs, c.logged, .raised e⟩
    | .toBackoff r =>
      let nr := network_coroutine hasHandler cbRaises r c.logged rest
      ⟨r :: nr.backoffs, c.msgLogs ++ nr.msgLogs, nr.logged, nr.ending⟩

/-! ## `client.py`: `_network_coroutine_wrapper`, `is_running`, `start` -/

/-- The client fields relevant to the lifecycle wrapper:
`self._network_future` (as a presence flag) and whether a handler is
installed. -/
structure ClientState where
  network_future : Bool
  handlerInstalled : Bool

/-- Model of `BlivechatClient.is_running` from `client.py`. -/
def is_running (s : ClientState) : Bool :=
  s.network_future

/-- Result of `BlivechatClient._network_coroutine_wrapper`: whether the
exception was logged, the client state at the moment
`on_client_stopped` is invoked, and the list of `on_client_stopped`
invocations with their exception argument. -/
structure WrapperResult where
  excLogged : Bool
  stateAtCallback : ClientState
  callbackCalls : List (Option PyExc)

/-- Model of `BlivechatClient._network_coroutine_wrapper` from `client.py`:
cancellation yields no error, any other exception is logged and kept;
the `finally` clears `self._network_future`; then, if a handler is
installed, `on_client_stopped(self, exc)` is invoked once. -/
def network_coroutine_wrapper (s : ClientState) (ending : NetEnd) :
    WrapperResult :=
  let exc : Option PyExc :=
    match ending with
    | .cancelled => none
    | .raised e => some e
  let s' : ClientState := { s with network_future := false }
  ⟨exc.isSome, s', if s.handlerInstalled then [exc] else []⟩

/-- Model of `BlivechatClient.start` from `client.py`: warn and do nothing when
already running, otherwise create the network task. Returns the new
state and whether the already-running warning fired. -/
def start (s : ClientState) : ClientState × Bool :=
  if is_running s then (s, true)
  else ({ s with network_future := true }, false)

/-! ## Theorems -/

theorem strLast3_of_short (s : String) (h : s.length ≤ 3) : strLast3 s = s := by
  obtain ⟨l⟩ := s
  unfold strLast3
  have hd : l.length ≤ 3 := h
  rw [Nat.sub_eq_zero_of_le hd, List.drop_zero]

/-- C4: the reconnect delay after the n-th consecutive failure equals
`min(1 + (n-1)*2, 10)`; the backoff sequence is exactly
`1, 3, 5, 7, 9, 10, 10, ...` and never exceeds 10 for any positive
retry count. -/
theorem backoff_interval_correct (n : Int) (h : 1 ≤ n) :
    getReconnectInterval n = min (1 + (n - 1) * 2) 10 ∧
    getReconnectInterval n ≤ 10 ∧
    1 ≤ getReconnectInterval n ∧
    getReconnectInterval 1 = 1 ∧ getReconnectInterval 2 = 3 ∧
    getReconnectInterval 3 = 5 ∧ getReconnectInterval 4 = 7 ∧
    getReconnectInterval 5 = 9 ∧ getReconnectInterval 6 = 10 ∧
    getReconnectInterval 7 = 10 ∧
    (∀ m : Int, 6 ≤ m → getReconnectInterval m = 10) := by
  refine ⟨rfl, min_le_right _ _, le_min (by omega) (by omega), by decide,
    by decide, by decide, by decide, by decide, by decide, by decide, ?_⟩
  intro m hm
  unfold getReconnectInterval
  rw [min_eq_right (by omega : (10 : Int) ≤ 1 + (m - 1) * 2)]

/-- Witness for the backoff theorem at retry_count = 12. -/
theorem backoff_interval_correct_witness :
    (1 : Int) ≤ 12 ∧ getReconnectInterval 12 ≤ 10 :=
  ⟨by decide, (backoff_interval_correct 12 (by decide)).2.1⟩

/-- C7: an AUTH_CODE room key with value `"abcdef123"` renders as
`"***123"`; a ROOM_ID room key with value `92384` renders as `"92384"`. -/
theorem roomkey_rendering :
    RoomKey.str ⟨.AUTH_CODE, .strVal "abcdef123"⟩ = "***123" ∧
    RoomKey.str ⟨.ROOM_ID, .intVal 92384⟩ = "92384" :=
  ⟨rfl, rfl⟩

/-- C9: for an AUTH_CODE room key whose rendered value has at most three
characters, the masked representation is `"***"` followed by the entire
value, exposing the complete credential. -/
theorem roomkey_short_value_mask (k : RoomKey)
    (htype : k.type = RoomKeyType.AUTH_CODE)
    (hlen : k.value.toStr.length ≤ 3) :
    k.str = "***" ++ k.value.toStr := by
  unfold RoomKey.str
  rw [if_pos htype, strLast3_of_short _ hlen]

/-- Witness for the short-auth-code theorem at value `"ab"`. -/
theorem roomkey_short_value_mask_witness :
    RoomKey.str ⟨.AUTH_CODE, .strVal "ab"⟩ = "***ab" :=
  roomkey_short_value_mask ⟨.AUTH_CODE, .strVal "ab"⟩ rfl (by decide)

/-- C10: on every termination path of the background task, the
running-task reference is cleared before `on_client_stopped` is invoked,
so `is_running` is `False` during the callback and a `start()` call made
from inside it creates a new task without the already-running warning
no-op. -/
theorem callback_sees_stopped_client (s : ClientState) (ending : NetEnd) :
    (network_coroutine_wrapper s ending).stateAtCallback.network_future = false ∧
    is_running (network_coroutine_wrapper s ending).stateAtCallback = false ∧
    (start (network_coroutine_wrapper s ending).stateAtCallback).2 = false ∧
    (start (network_coroutine_wrapper s ending).stateAtCallback).1.network_future
      = true := by
  refine ⟨rfl, rfl, ?_, ?_⟩ <;>
    simp [start, is_running, network_coroutine_wrapper]

/-- C6: a command code absent from the dispatch table is logged exactly
once across repeated occurrences (the de-duplication set persists), and
the frame is ignored without invoking any handler method. -/
theorem unknown_cmd_logged_once (cbRaises : CallbackId → Bool)
    (logged : List CmdKey) (command cmd : JVal) (k : CmdKey)
    (hcmd : pyGetKey command "cmd" = some cmd)
    (hk : pyCmdKey cmd = some k)
    (hunk : cmdKeyLookup k = none) :
    (base_handle cbRaises logged command).invoked = none ∧
    (base_handle cbRaises logged command).result = .ok () ∧
    (k ∉ logged →
      (base_handle cbRaises logged command).unknownLogged = true ∧
      (base_handle cbRaises logged command).logged = k :: logged) ∧
    (k ∈ logged →
      (base_handle cbRaises logged command).unknownLogged = false ∧
      (base_handle cbRaises logged command).logged = logged) ∧
    (base_handle cbRaises
      (base_handle cbRaises logged command).logged command).unknownLogged
      = false := by
  unfold base_handle
  simp only [hcmd, hk, hunk]
  by_cases hmem : k ∈ logged
  · simp [hmem]
  · simp [hmem]

/-- Witness for the unknown-cmd theorem at code 100 on an empty set. -/
theorem unknown_cmd_logged_once_witness :
    (base_handle (fun _ => false) [] (.jobj [("cmd", .jnum 100)])).unknownLogged
      = true ∧
    (base_handle (fun _ => false)
      (base_handle (fun _ => false) [] (.jobj [("cmd", .jnum 100)])).logged
      (.jobj [("cmd", .jnum 100)])).unknownLogged = false := by
  have h := unknown_cmd_logged_once (fun _ => false) []
    (.jobj [("cmd", .jnum 100)]) (.jnum 100) (.intKey 100) rfl rfl rfl
  exact ⟨(h.2.2.1 (by decide)).1, h.2.2.2.2⟩

/-- C3: an exception raised by the handler is caught and logged inside
the dispatch step and never propagates (the step's raised exception and
the de-duplication set are independent of whether handler callbacks
raise); and when `cmd` is FATAL_ERROR with a well-formed body, the
dispatch step raises the fatal error unconditionally, whatever the
handler did. -/
theorem handler_exception_contained (cbRaises : CallbackId → Bool)
    (logged : List CmdKey) (command : JVal) :
    ((handle_command true cbRaises logged command).result =
      (handle_command true (fun _ => false) logged command).result) ∧
    ((handle_command true cbRaises logged command).logged =
      (handle_command true (fun _ => false) logged command).logged) ∧
    (∀ r, (handle_command true cbRaises logged command).dispatch = some r →
      r.result.isOk = false →
      (handle_command true cbRaises logged command).handlerErrorLogged = true) ∧
    (∀ cmd body t m, pyGetKey command "cmd" = some cmd →
      pyEqInt cmd Command.FATAL_ERROR = true →
      pyGetKey command "data" = some body →
      pyGetKey body "type" = some t →
      pyGetKey body "msg" = some m →
      (handle_command true cbRaises logged command).result =
        .error (.fatalError t m)) := by
  refine ⟨rfl, ?_, ?_, ?_⟩
  · show (base_handle cbRaises logged command).logged =
      (base_handle (fun _ => false) logged command).logged
    unfold base_handle
    repeat first
      | rfl
      | split
  · intro r hr hfail
    show (match (handle_command true cbRaises logged command).dispatch with
      | some r => !r.result.isOk
      | none => false) = true
    rw [hr]
    simp [hfail]
  · intro cmd body t m hcmd hfatal hdata ht hm
    show (match pyGetKey command "cmd" with
      | none => Except.error PyExc.keyError
      | some cmd =>
        if pyEqInt cmd Command.FATAL_ERROR then
          match pyGetKey command "data" with
          | none => Except.error PyExc.keyError
          | some body =>
            match pyGetKey body "type" with
            | none => Except.error PyExc.keyError
            | some t =>
              match pyGetKey body "msg" with
              | none => Except.error PyExc.keyError
              | some m => Except.error (PyExc.fatalError t m)
        else Except.ok ()) = Except.error (PyExc.fatalError t m)
    simp [hcmd, hfatal, hdata, ht, hm]

theorem runFrames_allOk (hasHandler : Bool) (cbRaises : CallbackId → Bool)
    (fs : List WsFrame) : ∀ (logged : List CmdKey),
    framesAllOk hasHandler cbRaises logged fs = true →
    (runFrames hasHandler cbRaises 0 logged fs).retry = 0 ∧
    (runFrames hasHandler cbRaises 0 logged fs).exc = none := by
  induction fs with
  | nil => intro logged _; exact ⟨rfl, rfl⟩
  | cons f fs ih =>
    intro logged h
    unfold framesAllOk at h
    unfold runFrames
    dsimp only at h ⊢
    split at h
    · next heq =>
      simp only [heq]
      exact ih _ h
    · exact absurd h (by simp)

/-- C5: a connection cycle in which every received frame is handled
successfully (and which then fails or closes) resets the retry counter
to 0 during the receive loop, so its backoff begins again at
retry_count 1, whatever the retry count was when the cycle started. -/
theorem success_resets_retry (hasHandler : Bool) (cbRaises : CallbackId → Bool)
    (retry : Nat) (logged : List CmdKey) (frames : List WsFrame)
    (ending : StreamEnd) (hne : frames ≠ [])
    (hok : framesAllOk hasHandler cbRaises logged frames = true) :
    (runFrames hasHandler cbRaises retry logged frames).retry = 0 ∧
    (run_cycle hasHandler cbRaises retry logged
        (.connected frames ending)).outcome = .toBackoff 1 := by
  obtain ⟨f, fs, rfl⟩ : ∃ f fs, frames = f :: fs := by
    cases frames with
    | nil => exact absurd rfl hne
    | cons f fs => exact ⟨f, fs, rfl⟩
  unfold framesAllOk at hok
  have hrun : (runFrames hasHandler cbRaises retry logged (f :: fs)).retry = 0 ∧
      (runFrames hasHandler cbRaises retry logged (f :: fs)).exc = none := by
    unfold runFrames
    dsimp only at hok ⊢
    split at hok
    · next heq =>
      simp only [heq]
      exact runFrames_allOk hasHandler cbRaises fs _ hok
    · exact absurd hok (by simp)
  refine ⟨hrun.1, ?_⟩
  unfold run_cycle
  dsimp only
  rw [hrun.2]
  cases ending <;> simp [hrun.1]

/-- Witness for the retry-reset theorem: one successfully handled
non-text frame from retry count 5. -/
theorem success_resets_retry_witness :
    ([WsFrame.binFrame] ≠ [] ∧
      framesAllOk false (fun _ => false) [] [WsFrame.binFrame] = true) ∧
    (run_cycle false (fun _ => false) 5 [] (.connected [.binFrame] .closed)).outcome
      = .toBackoff 1 :=
  ⟨⟨by simp, rfl⟩,
    (success_resets_retry false (fun _ => false) 5 [] [.binFrame] .closed
      (by simp) rfl).2⟩

/-- A canonical FATAL_ERROR envelope `{cmd: 8, data: {type, msg}}`. -/
def mkFatalCommand (t m : JVal) : JVal :=
  .jobj [("cmd", .jnum Command.FATAL_ERROR),
         ("data", .jobj [("type", t), ("msg", m)])]

/-- Whether a received message's dispatch invoked the handler's
`_on_fatal_error` callback. -/
def invokedFatalBool (r : WsMsgResult) : Bool :=
  match r.dispatch with
  | some hc =>
    match hc.dispatch with
    | some b =>
      match b.invoked with
      | some .on_fatal_error => true
      | _ => false
    | none => false
  | none => false

/-- How many messages of a run invoked the `_on_fatal_error` callback. -/
def countFatalInvocations (logs : List WsMsgResult) : Nat :=
  (logs.filter invokedFatalBool).length

theorem cmdKeyLookup_fatal (k : CmdKey)
    (h : cmdKeyLookup k = some .on_fatal_error) : k = .intKey 8 := by
  cases k with
  | intKey n =>
    unfold cmdKeyLookup CMD_CALLBACK_DICT at h
    dsimp only at h
    split_ifs at h with h0 h1 h2 h3 h4 h5 h6 h7 <;>
      simp_all [Command.HEARTBEAT, Command.ADD_TEXT, Command.ADD_GIFT,
        Command.ADD_MEMBER, Command.ADD_SUPER_CHAT, Command.DEL_SUPER_CHAT,
        Command.UPDATE_TRANSLATION, Command.FATAL_ERROR]
  | strKey s => exact absurd h (by simp [cmdKeyLookup])
  | nullKey => exact absurd h (by simp [cmdKeyLookup])

theorem pyCmdKey_intKey8 (cmd : JVal) (h : pyCmdKey cmd = some (.intKey 8)) :
    pyEqInt cmd Command.FATAL_ERROR = true := by
  cases cmd with
  | jnum n =>
    simp [pyCmdKey] at h
    simp [pyEqInt, h, Command.FATAL_ERROR]
  | jbool b => cases b <;> simp [pyCmdKey] at h
  | jnull => simp [pyCmdKey] at h
  | jstr s => simp [pyCmdKey] at h
  | jarr xs => simp [pyCmdKey] at h
  | jobj fields => simp [pyCmdKey] at h

theorem base_handle_invoked_fatal (cbRaises : CallbackId → Bool)
    (logged : List CmdKey) (body : JVal)
    (hinv : (base_handle cbRaises logged body).invoked = some .on_fatal_error) :
    ∃ cmd, pyGetKey body "cmd" = some cmd ∧
      pyEqInt cmd Command.FATAL_ERROR = true := by
  unfold base_handle at hinv
  cases h1 : pyGetKey body "cmd" with
  | none => rw [h1] at hinv; simp at hinv
  | some cmd =>
    rw [h1] at hinv
    dsimp only at hinv
    cases h2 : pyCmdKey cmd with
    | none => rw [h2] at hinv; simp at hinv
    | some k =>
      rw [h2] at hinv
      dsimp only at hinv
      cases h3 : cmdKeyLookup k with
      | none =>
        rw [h3] at hinv
        dsimp only at hinv
        by_cases hmem : k ∈ logged <;> simp [hmem] at hinv
      | some cb =>
        rw [h3] at hinv
        dsimp only at hinv
        cases h4 : pyGetKey body "data" with
        | none => rw [h4] at hinv; simp at hinv
        | some data =>
          rw [h4] at hinv
          dsimp only at hinv
          by_cases hdec : decodeSucceeds cb data = true
          · rw [if_pos hdec] at hinv
            simp only [Option.some.injEq] at hinv
            subst hinv
            exact ⟨cmd, rfl, pyCmdKey_intKey8 cmd (cmdKeyLookup_fatal k h3 ▸ h2)⟩
          · rw [if_neg hdec] at hinv; simp at hinv

theorem handle_command_fatal_cmd_raises (hasHandler : Bool)
    (cbRaises : CallbackId → Bool) (logged : List CmdKey) (body cmd : JVal)
    (h1 : pyGetKey body "cmd" = some cmd)
    (h2 : pyEqInt cmd Command.FATAL_ERROR = true) :
    (handle_command hasHandler cbRaises logged body).result.isOk = false := by
  show (match pyGetKey body "cmd" with
    | none => Except.error PyExc.keyError
    | some cmd =>
      if pyEqInt cmd Command.FATAL_ERROR then
        match pyGetKey body "data" with
        | none => Except.error PyExc.keyError
        | some body =>
          match pyGetKey body "type" with
          | none => Except.error PyExc.keyError
          | some t =>
            match pyGetKey body "msg" with
            | none => Except.error PyExc.keyError
            | some m => Except.error (PyExc.fatalError t m)
      else Except.ok ()).isOk = false
  simp only [h1, h2, if_true]
  repeat first
    | rfl
    | split

theorem handle_command_dispatch_some (hasHandler : Bool)
    (cbRaises : CallbackId → Bool) (logged : List CmdKey) (body : JVal)
    (b : BaseHandleResult)
    (hd : (handle_command hasHandler cbRaises logged body).dispatch = some b) :
    b = base_handle cbRaises logged body := by
  cases hasHandler with
  | false => simp [handle_command] at hd
  | true =>
    have : some (base_handle cbRaises logged body) = some b := hd
    exact (Option.some.injEq _ _ ▸ this).symm

/-- A frame whose `_on_ws_message` returns normally never invoked the
`_on_fatal_error` callback (a FATAL_ERROR cmd always makes the dispatch
step raise). -/
theorem ok_no_fatal_invocation (hasHandler : Bool)
    (cbRaises : CallbackId → Bool) (logged : List CmdKey) (f : WsFrame)
    (hok : (on_ws_message hasHandler cbRaises logged f).result = .ok ()) :
    invokedFatalBool (on_ws_message hasHandler cbRaises logged f) = false := by
  cases f with
  | binFrame => rfl
  | textFrame raw =>
    cases raw with
    | none => simp [on_ws_message] at hok
    | some body =>
      unfold on_ws_message at hok ⊢
      dsimp only at hok ⊢
      cases hr : (handle_command hasHandler cbRaises logged body).result with
      | error e => rw [hr] at hok; simp at hok
      | ok a =>
        unfold invokedFatalBool
        dsimp only
        cases hd : (handle_command hasHandler cbRaises logged body).dispatch with
        | none => rfl
        | some b =>
          dsimp only
          cases hi : b.invoked with
          | none => rfl
          | some cb =>
            cases cb with
            | on_fatal_error =>
              have hb := handle_command_dispatch_some hasHandler cbRaises
                logged body b hd
              obtain ⟨cmd, hcmd, hfatal⟩ := base_handle_invoked_fatal cbRaises
                logged body (hb ▸ hi)
              have hraises := handle_command_fatal_cmd_raises hasHandler cbRaises
                logged body cmd hcmd hfatal
              rw [hr] at hraises
              exact absurd hraises (by simp [Except.isOk, Except.toBool])
            | on_heartbeat => rfl
            | on_add_text => rfl
            | on_add_gift => rfl
            | on_add_member => rfl
            | on_add_super_chat => rfl
            | on_del_super_chat => rfl
            | on_update_translation => rfl

theorem runFrames_fatal (cbRaises : CallbackId → Bool) (t m : JVal)
    (pre : List WsFrame) : ∀ (retry : Nat) (logged : List CmdKey),
    framesAllOk true cbRaises logged pre = true →
    (runFrames true cbRaises retry logged
        (pre ++ [.textFrame (some (mkFatalCommand t m))])).exc =
      some (.fatalError t m) ∧
    countFatalInvocations (runFrames true cbRaises retry logged
        (pre ++ [.textFrame (some (mkFatalCommand t m))])).msgLogs = 1 := by
  induction pre with
  | nil => intro retry logged _; exact ⟨rfl, rfl⟩
  | cons f fs ih =>
    intro retry logged h
    unfold framesAllOk at h
    rw [List.cons_append]
    unfold runFrames
    dsimp only at h ⊢
    split at h
    · next a heq =>
      have ha : a = () := rfl
      subst ha
      simp only [heq]
      refine ⟨(ih 0 _ h).1, ?_⟩
      unfold countFatalInvocations
      rw [List.filter_cons_of_neg]
      · exact (ih 0 _ h).2
      · rw [ok_no_fatal_invocation true cbRaises logged f heq]
        simp
    · exact absurd h (by simp)

/-- C2: a received FATAL_ERROR frame (after any successfully handled
frames on the same connection) invokes the handler's `_on_fatal_error`
callback exactly once; the lifecycle coroutine then terminates with that
fatal error and never reaches another backoff, whatever the rest of the
script holds; the wrapper invokes `on_client_stopped` exactly once with
that error (and with no error after a clean cancellation). -/
theorem fatal_error_stops_lifecycle (cbRaises : CallbackId → Bool)
    (retry : Nat) (logged : List CmdKey) (pre : List WsFrame) (t m : JVal)
    (ending : StreamEnd) (rest : List ConnAttempt) (s : ClientState)
    (hpre : framesAllOk true cbRaises logged pre = true)
    (hhandler : s.handlerInstalled = true) :
    (network_coroutine true cbRaises retry logged
        (.connected (pre ++ [.textFrame (some (mkFatalCommand t m))]) ending
          :: rest)).ending = .raised (.fatalError t m) ∧
    (network_coroutine true cbRaises retry logged
        (.connected (pre ++ [.textFrame (some (mkFatalCommand t m))]) ending
          :: rest)).backoffs = [] ∧
    countFatalInvocations (network_coroutine true cbRaises retry logged
        (.connected (pre ++ [.textFrame (some (mkFatalCommand t m))]) ending
          :: rest)).msgLogs = 1 ∧
    (network_coroutine_wrapper s (.raised (.fatalError t m))).callbackCalls =
      [some (.fatalError t m)] ∧
    (network_coroutine_wrapper s NetEnd.cancelled).callbackCalls = [none] := by
  have hrf := runFrames_fatal cbRaises t m pre retry logged hpre
  unfold network_coroutine
  unfold run_cycle
  dsimp only
  rw [hrf.1]
  dsimp only
  refine ⟨rfl, rfl, hrf.2, ?_, ?_⟩ <;>
    simp [network_coroutine_wrapper, hhandler]

/-- Witness for the fatal-error theorem: one heartbeat frame, then a
FATAL_ERROR frame, with a handler whose callbacks raise. -/
theorem fatal_error_stops_lifecycle_witness :
    framesAllOk true (fun _ => true) []
      [.textFrame (some (.jobj [("cmd", .jnum 0), ("data", .jobj [])]))]
      = true ∧
    (network_coroutine true (fun _ => true) 3 []
        [.connected
          [.textFrame (some (.jobj [("cmd", .jnum 0), ("data", .jobj [])])),
           .textFrame (some (mkFatalCommand (.jnum 1) (.jstr "auth code error")))]
          .closed]).ending
      = .raised (.fatalError (.jnum 1) (.jstr "auth code error")) := by
  have h := fatal_error_stops_lifecycle (fun _ => true) 3 []
    [.textFrame (some (.jobj [("cmd", .jnum 0), ("data", .jobj [])]))]
    (.jnum 1) (.jstr "auth code error") .closed [] ⟨true, true⟩ rfl rfl
  exact ⟨rfl, h.1⟩

/-- C1 counterexample: a TEXT frame with an unparsable payload does NOT
drive the outer loop to BACKOFF; no backoff is ever executed and the
lifecycle coroutine terminates with the raised decode error. -/
theorem decode_error_no_backoff_counterexample :
    (network_coroutine false (fun _ => false) 0 []
        [.connected [.textFrame none] .closed]).backoffs = [] ∧
    (network_coroutine false (fun _ => false) 0 []
        [.connected [.textFrame none] .closed]).ending
      = .raised .otherError :=
  ⟨rfl, rfl⟩

theorem known_nonfatal_not_fatal_cmd (cmd : JVal) (k : CmdKey)
    (cb : CallbackId) (hk : pyCmdKey cmd = some k)
    (hcb : cmdKeyLookup k = some cb) (hnf : cb ≠ .on_fatal_error) :
    pyEqInt cmd Command.FATAL_ERROR = false := by
  cases k with
  | strKey s => simp [cmdKeyLookup] at hcb
  | nullKey => simp [cmdKeyLookup] at hcb
  | intKey n =>
    have hn8 : n ≠ 8 := by
      intro hn
      subst hn
      have h8 : cmdKeyLookup (.intKey 8) = some CallbackId.on_fatal_error := by
        decide
      rw [h8] at hcb
      exact hnf (Option.some.injEq _ _ ▸ hcb).symm
    cases cmd with
    | jnum m =>
      have hm : m = n := by
        simp only [pyCmdKey, Option.some.injEq, CmdKey.intKey.injEq] at hk
        exact hk
      subst hm
      simp [pyEqInt, Command.FATAL_ERROR, hn8]
    | jbool b => cases b <;> decide
    | jnull => simp [pyCmdKey] at hk
    | jstr s => simp [pyCmdKey] at hk
    | jarr xs => simp [pyCmdKey] at hk
    | jobj fields => simp [pyCmdKey] at hk

/-- C1 (amended): a malformed inbound text frame splits into two
classes. An envelope-level failure (unparsable JSON, missing `cmd` key
in the envelope, or a FATAL_ERROR body missing its required keys) is
logged with the offending raw payload and re-raised; the connection is
torn down unconditionally, but instead of BACKOFF the exception escapes
the reconnect loop, terminates the lifecycle task, and is delivered to
`on_client_stopped`. A decode failure inside the dispatched handler
(wrong arity or a missing key in the data of a known non-FATAL_ERROR
command) is caught and logged by the dispatch step and not re-raised:
the frame completes as successfully handled without the raw-payload
error log, the retry counter resets, and the connection continues, so a
following stream end backs off at retry count 1. -/
theorem malformed_payload_split_behavior (cbRaises : CallbackId → Bool)
    (retry : Nat) (logged : List CmdKey) (ending : StreamEnd)
    (rest : List ConnAttempt) (s : ClientState) :
    (∀ (hasHandler : Bool) (raw : Option JVal) (e : PyExc),
      (on_ws_message hasHandler cbRaises logged (.textFrame raw)).result
        = .error e →
      (on_ws_message hasHandler cbRaises logged
          (.textFrame raw)).bodyErrorLogged = true ∧
      (run_cycle hasHandler cbRaises retry logged
          (.connected [.textFrame raw] ending)).connState
        = ⟨false, false⟩ ∧
      (network_coroutine hasHandler cbRaises retry logged
          (.connected [.textFrame raw] ending :: rest)).ending = .raised e ∧
      (network_coroutine hasHandler cbRaises retry logged
          (.connected [.textFrame raw] ending :: rest)).backoffs = [] ∧
      (network_coroutine_wrapper s (.raised e)).callbackCalls
        = (if s.handlerInstalled then [some e] else []) ∧
      (network_coroutine_wrapper s
          (.raised e)).stateAtCallback.network_future = false) ∧
    (∀ (body cmd : JVal) (k : CmdKey) (cb : CallbackId),
      pyGetKey body "cmd" = some cmd →
      pyCmdKey cmd = some k →
      cmdKeyLookup k = some cb →
      cb ≠ .on_fatal_error →
      (handle_command true cbRaises logged body).result = .ok () ∧
      (on_ws_message true cbRaises logged
          (.textFrame (some body))).result = .ok () ∧
      (on_ws_message true cbRaises logged
          (.textFrame (some body))).bodyErrorLogged = false ∧
      ((base_handle cbRaises logged body).result.isOk = false →
        (handle_command true cbRaises logged body).handlerErrorLogged
          = true) ∧
      (run_cycle true cbRaises retry logged
          (.connected [.textFrame (some body)] ending)).outcome
        = .toBackoff 1) := by
  constructor
  · intro hasHandler raw e herr
    have hrun : (runFrames hasHandler cbRaises retry logged
        [.textFrame raw]).exc = some e := by
      unfold runFrames
      dsimp only
      rw [herr]
    refine ⟨?_, ?_, ?_, ?_, rfl, rfl⟩
    · cases raw with
      | none => rfl
      | some body =>
        unfold on_ws_message at herr ⊢
        dsimp only at herr ⊢
        cases hr : (handle_command hasHandler cbRaises logged body).result with
        | ok a => rw [hr] at herr; simp at herr
        | error e2 => rfl
    · unfold run_cycle
      dsimp only
      rw [hrun]
      rfl
    · unfold network_coroutine run_cycle
      dsimp only
      rw [hrun]
    · unfold network_coroutine run_cycle
      dsimp only
      rw [hrun]
  · intro body cmd k cb hcmd hk hcb hnf
    have h8 : pyEqInt cmd Command.FATAL_ERROR = false :=
      known_nonfatal_not_fatal_cmd cmd k cb hk hcb hnf
    have hres : (handle_command true cbRaises logged body).result = .ok () := by
      show (match pyGetKey body "cmd" with
        | none => Except.error PyExc.keyError
        | some cmd =>
          if pyEqInt cmd Command.FATAL_ERROR then
            match pyGetKey body "data" with
            | none => Except.error PyExc.keyError
            | some body =>
              match pyGetKey body "type" with
              | none => Except.error PyExc.keyError
              | some t =>
                match pyGetKey body "msg" with
                | none => Except.error PyExc.keyError
                | some m => Except.error (PyExc.fatalError t m)
          else Except.ok ()) = Except.ok ()
      simp [hcmd, h8]
    have hws : (on_ws_message true cbRaises logged
          (.textFrame (some body))).result = .ok () ∧
        (on_ws_message true cbRaises logged
          (.textFrame (some body))).bodyErrorLogged = false := by
      unfold on_ws_message
      dsimp only
      rw [hres]
      exact ⟨rfl, rfl⟩
    refine ⟨hres, hws.1, hws.2, ?_, ?_⟩
    · intro hfail
      show (!(base_handle cbRaises logged body).result.isOk) = true
      rw [hfail]
      rfl
    · have hfr : (runFrames true cbRaises retry logged
            [.textFrame (some body)]).retry = 0 ∧
          (runFrames true cbRaises retry logged
            [.textFrame (some body)]).exc = none := by
        unfold runFrames
        dsimp only
        rw [hws.1]
        exact ⟨rfl, rfl⟩
      unfold run_cycle
      dsimp only
      rw [hfr.2]
      cases ending <;> simp [hfr.1]

/-- Witness for the malformed-payload theorem: an envelope with no `cmd`
key escapes the loop and terminates the coroutine, while a wrong-arity
ADD_TEXT payload is contained — the dispatch step returns normally with
the handler error logged, and the cycle backs off at retry count 1. -/
theorem malformed_payload_split_behavior_witness :
    (network_coroutine false (fun _ => false) 7 []
        [.connected [.textFrame (some (.jobj []))] .transportError]).ending
      = .raised .keyError ∧
    (handle_command true (fun _ => false) []
        (.jobj [("cmd", .jnum 2), ("data", .jarr [.jstr "short"])])).result
      = .ok () ∧
    (handle_command true (fun _ => false) []
        (.jobj [("cmd", .jnum 2),
          ("data", .jarr [.jstr "short"])])).handlerErrorLogged = true ∧
    (run_cycle true (fun _ => false) 7 []
        (.connected [.textFrame (some (.jobj [("cmd", .jnum 2),
          ("data", .jarr [.jstr "short"])]))] .transportError)).outcome
      = .toBackoff 1 := by
  have h := malformed_payload_split_behavior (fun _ => false) 7 []
    .transportError [] ⟨true, true⟩
  have ha := h.1 false (some (.jobj [])) .keyError rfl
  have hb := h.2 (.jobj [("cmd", .jnum 2), ("data", .jarr [.jstr "short"])])
    (.jnum 2) (.intKey 2) .on_add_text rfl rfl (by decide) (by decide)
  exact ⟨ha.2.2.1, hb.1, hb.2.2.2.1 rfl, hb.2.2.2.2⟩

/-- Witness for the handler-exception theorem: a handler whose callbacks
all raise still lets the dispatch step raise the fatal error. -/
theorem handler_exception_contained_witness :
    (handle_command true (fun _ => true) []
        (mkFatalCommand (.jnum 1) (.jstr "err"))).result =
      .error (.fatalError (.jnum 1) (.jstr "err")) :=
  (handler_exception_contained (fun _ => true) []
      (mkFatalCommand (.jnum 1) (.jstr "err"))).2.2.2
    (.jnum 8) (.jobj [("type", .jnum 1), ("msg", .jstr "err")])
    (.jnum 1) (.jstr "err") rfl rfl rfl rfl rfl

/-- The AddText positional payload
`["url", 1000, "alice", 0, "hi", 0, 0, 1, 0, 1, 0, "m1", "", 1, ["emo.png"]]`. -/
def addTextDemoPayload : JVal :=
  .jarr [.jstr "url", .jnum 1000, .jstr "alice", .jnum 0, .jstr "hi", .jnum 0,
    .jnum 0, .jnum 1, .jnum 0, .jnum 1, .jnum 0, .jstr "m1", .jstr "",
    .jnum 1, .jarr [.jstr "emo.png"]]

/-- C8: whenever the content-type field of an AddText payload equals
EMOTICON and the raw parameter array is non-empty, decode rewrites the
parameter array into `{url: first element}`; in particular the demo
payload decodes to `content_type = EMOTICON` and
`content_type_params = {"url": "emo.png"}`. -/
theorem addtext_emoticon_rewrite (data ct u : JVal) (tail : List JVal)
    (msg : AddTextMsg)
    (h13 : pyIndex data 13 = some ct)
    (hct : pyEqInt ct ContentType.EMOTICON.val = true)
    (h14 : pyIndex data 14 = some (.jarr (u :: tail)))
    (hmsg : AddTextMsg.from_command data = some msg) :
    msg.content_type = ct ∧
    msg.content_type_params = .jobj [("url", u)] ∧
    (AddTextMsg.from_command addTextDemoPayload).map
        (fun w => (w.content_type, w.content_type_params))
      = some (.jnum ContentType.EMOTICON.val,
          .jobj [("url", .jstr "emo.png")]) := by
  unfold AddTextMsg.from_command at hmsg
  rw [Option.bind_eq_bind'] at hmsg
  rw [h13, Option.some_bind'] at hmsg
  rw [Option.bind_eq_bind'] at hmsg
  rw [h14, Option.some_bind'] at hmsg
  dsimp only at hmsg
  rw [if_pos hct] at hmsg
  have hu : pyIndex (JVal.jarr (u :: tail)) 0 = some u := rfl
  rw [hu] at hmsg
  dsimp only at hmsg
  rw [Option.bind_eq_bind'] at hmsg
  rw [Option.some_bind'] at hmsg
  try dsimp only at hmsg
  repeat
    rw [Option.bind_eq_bind'] at hmsg
    rw [Option.bind_eq_some'] at hmsg
    obtain ⟨_, -, hmsg⟩ := hmsg
    try dsimp only at hmsg
  simp only [Option.pure_def, Option.some.injEq] at hmsg
  subst hmsg
  exact ⟨rfl, rfl, rfl⟩

/-- Witness for the EMOTICON-rewrite theorem at the demo payload. -/
theorem addtext_emoticon_rewrite_witness :
    AddTextMsg.from_command addTextDemoPayload =
      some ⟨.jstr "url", .jnum 1000, .jstr "alice", .jnum 0, .jstr "hi",
        .jnum 0, false, .jnum 1, false, true, .jnum 0, .jstr "m1", .jstr "",
        .jnum 1, .jobj [("url", .jstr "emo.png")]⟩ ∧
    (AddTextMsg.mk (.jstr "url") (.jnum 1000) (.jstr "alice") (.jnum 0)
        (.jstr "hi") (.jnum 0) false (.jnum 1) false true (.jnum 0)
        (.jstr "m1") (.jstr "") (.jnum 1)
        (.jobj [("url", .jstr "emo.png")])).content_type_params
      = .jobj [("url", .jstr "emo.png")] :=
  ⟨rfl,
    (addtext_emoticon_rewrite addTextDemoPayload (.jnum 1) (.jstr "emo.png")
      [] ⟨.jstr "url", .jnum 1000, .jstr "alice", .jnum 0, .jstr "hi",
        .jnum 0, false, .jnum 1, false, true, .jnum 0, .jstr "m1", .jstr "",
        .jnum 1, .jobj [("url", .jstr "emo.png")]⟩
      rfl rfl rfl rfl).2.1⟩

end Blc
